import Mathlib

/-!
# FreeResend `test-smtp.js`

A shallow embedding of the SMTP diagnostic script: the configuration loader
`getConfigFromEnv`, the runner `sendTestEmail`, and the top-level promise chain
that maps the outcome to a process exit code.

The process environment is a lookup from variable names to optional strings.
The mail-transport library is a parameter: `createTransport` maps the SMTP
configuration to a transporter whose `verify` and `sendMail` outcomes are given.
Console output and transport calls are recorded in an explicit event trace.
-/

namespace FreeResend

/-! ## Numbers -/

/-- An IEEE 754 binary64 value as JavaScript sees it: NaN, an infinity, or the
finite value `(-1)^neg * mant * 2^exp` with `mant < 2^53` and
`-1074 ≤ exp ≤ 971` (the significand and exponent of the encoding). -/
inductive JSNumber where
  | nan
  | inf (neg : Bool)
  | fin (neg : Bool) (mant : Nat) (exp : Int)
  deriving DecidableEq, Repr

namespace JSNumber

/-- The result of `Number.isNaN(n)`. -/
def isNaN : JSNumber → Bool
  | nan => true
  | _ => false

/-- The result of `n <= 0`. -/
def leZero : JSNumber → Bool
  | nan => false
  | inf neg => neg
  | fin neg mant _ => neg || mant == 0

/-- The result of `n > 0`. -/
def gtZero : JSNumber → Bool
  | nan => false
  | inf neg => !neg
  | fin neg mant _ => !neg && mant != 0

/-- The result of `Number.isFinite(n)`. -/
def isFinite : JSNumber → Bool
  | fin _ _ _ => true
  | _ => false

/-- The result of `Number.isInteger(n)`. -/
def isInteger : JSNumber → Bool
  | fin _ mant exp => decide (0 ≤ exp) || mant % 2 ^ exp.natAbs == 0
  | _ => false

end JSNumber

/-- The number of binary digits of `n`, by recursion on `fuel ≥ n`. -/
def bitLength : Nat → Nat → Nat
  | 0, _ => 0
  | fuel + 1, n => if n = 0 then 0 else bitLength fuel (n / 2) + 1

/-- The floor of the binary logarithm of `n` (`0` at `n = 0`). -/
def log2Floor (n : Nat) : Nat :=
  bitLength n n - 1

/-- Whether `num / den ≥ 2^k`. -/
def geTwoPow (num den : Nat) (k : Int) : Bool :=
  if 0 ≤ k then decide (den * 2 ^ k.toNat ≤ num) else decide (den ≤ num * 2 ^ k.natAbs)

/-- The binary64 value nearest to `(-1)^neg * num / den` (`den > 0`), ties to
even, overflowing to an infinity. -/
def roundToDouble (neg : Bool) (num den : Nat) : JSNumber :=
  if num = 0 then .fin neg 0 (-1074) else
  let k0 : Int := (log2Floor num : Int) - (log2Floor den : Int)
  let k : Int := if geTwoPow num den k0 then k0 else k0 - 1
  let q : Int := max (k - 52) (-1074)
  let n := if q < 0 then num * 2 ^ q.natAbs else num
  let d := if q < 0 then den else den * 2 ^ q.toNat
  let m0 := n / d
  let r := n % d
  let m := if 2 * r < d then m0 else if d < 2 * r then m0 + 1
    else if m0 % 2 = 0 then m0 else m0 + 1
  let m1 := if m = 2 ^ 53 then 2 ^ 52 else m
  let q1 := if m = 2 ^ 53 then q + 1 else q
  if 971 < q1 then .inf neg else .fin neg m1 q1

/-- The characters of `StrWhiteSpaceChar`: white space and line terminators. -/
def isStrWhiteSpaceChar (c : Char) : Bool :=
  let n := c.toNat
  n == 0x09 || n == 0x0A || n == 0x0B || n == 0x0C || n == 0x0D || n == 0x20 ||
  n == 0xA0 || n == 0x1680 || (0x2000 ≤ n && n ≤ 0x200A) || n == 0x2028 ||
  n == 0x2029 || n == 0x202F || n == 0x205F || n == 0x3000 || n == 0xFEFF

/-- Strip leading and trailing `StrWhiteSpaceChar`s. -/
def trimStrWhiteSpace (cs : List Char) : List Char :=
  ((cs.dropWhile isStrWhiteSpaceChar).reverse.dropWhile isStrWhiteSpaceChar).reverse

/-- The value of a digit character in bases up to sixteen. -/
def digitVal (c : Char) : Option Nat :=
  let n := c.toNat
  if 48 ≤ n ∧ n ≤ 57 then some (n - 48)
  else if 97 ≤ n ∧ n ≤ 102 then some (n - 87)
  else if 65 ≤ n ∧ n ≤ 70 then some (n - 55)
  else none

/-- The value of a non-empty run of digits of the given base; `none` when the
run is empty or holds another character. -/
def parseDigits (base : Nat) (cs : List Char) : Option Nat :=
  if cs.isEmpty then none
  else cs.foldlM
    (fun acc c => match digitVal c with
      | some d => if d < base then some (acc * base + d) else none
      | none => none) 0

/-- The grammar `StrUnsignedDecimalLiteral` without `Infinity`: digits with an
optional fraction and an optional exponent part. Returns `(m, e)` for the
mathematical value `m * 10^e`. -/
def parseUnsignedDecimal (cs : List Char) : Option (Nat × Int) :=
  let ip := cs.takeWhile Char.isDigit
  let r1 := cs.dropWhile Char.isDigit
  let fp := match r1 with
    | '.' :: t => t.takeWhile Char.isDigit
    | _ => []
  let r2 := match r1 with
    | '.' :: t => t.dropWhile Char.isDigit
    | _ => r1
  if ip.isEmpty && fp.isEmpty then none else
  let expo : Option Int := match r2 with
    | [] => some 0
    | c :: t =>
      if c = 'e' ∨ c = 'E' then
        match t with
        | '+' :: u => (parseDigits 10 u).map Int.ofNat
        | '-' :: u => (parseDigits 10 u).map (fun n => - Int.ofNat n)
        | _ => (parseDigits 10 t).map Int.ofNat
      else none
  match parseDigits 10 (ip ++ fp), expo with
  | some m, some e => some (m, e - fp.length)
  | _, _ => none

/-- The Number value of `(-1)^neg * m * 10^e`. -/
def decimalToNumber (neg : Bool) (m : Nat) (e : Int) : JSNumber :=
  if 0 ≤ e then roundToDouble neg (m * 10 ^ e.toNat) 1
  else roundToDouble neg m (10 ^ e.natAbs)

/-- The grammar `StrDecimalLiteral` after the optional sign. -/
def parseSignless (neg : Bool) (cs : List Char) : JSNumber :=
  if cs = "Infinity".data then .inf neg
  else match parseUnsignedDecimal cs with
    | some (m, e) => decimalToNumber neg m e
    | none => .nan

/-- The grammar `StrDecimalLiteral`. -/
def parseDecimalLiteral (cs : List Char) : JSNumber :=
  match cs with
  | '+' :: t => parseSignless false t
  | '-' :: t => parseSignless true t
  | _ => parseSignless false cs

/-- A binary, octal or hexadecimal integer literal after its two-character
marker. -/
def parseNonDecimal (base : Nat) (cs : List Char) : JSNumber :=
  match parseDigits base cs with
  | some n => roundToDouble false n 1
  | none => .nan

/-- The abstract operation `StringToNumber`. -/
def stringToNumber (s : String) : JSNumber :=
  match trimStrWhiteSpace s.data with
  | [] => .fin false 0 (-1074)
  | '0' :: x :: rest =>
    if x = 'x' ∨ x = 'X' then parseNonDecimal 16 rest
    else if x = 'o' ∨ x = 'O' then parseNonDecimal 8 rest
    else if x = 'b' ∨ x = 'B' then parseNonDecimal 2 rest
    else parseDecimalLiteral ('0' :: x :: rest)
  | cs => parseDecimalLiteral cs

/-- The result of `Number(v)` for a value that is a string or `undefined`. -/
def jsNumber : Option String → JSNumber
  | none => .nan
  | some s => stringToNumber s

/-- The result of `String(v)` for a value that is a string or `undefined`. -/
def jsString : Option String → String
  | none => "undefined"
  | some s => s

/-- The result of `!v` for a value that is a string or `undefined`. -/
def jsNot : Option String → Bool
  | none => true
  | some s => decide (s = "")

/-- The result of `String.prototype.toLowerCase`, on the ASCII letters. No other
code point lower-cases to one of `t`, `r`, `u`, `e`, so the comparison with
`'true'` below is not affected by the restriction. -/
def toLowerCase (s : String) : String :=
  String.mk (s.data.map Char.toLower)

/-! ## Data model -/

/-- The process environment: each variable is a string or `undefined`. -/
abbrev Env := String → Option String

/-- An `Error` object, as far as the script looks at it. -/
structure JSError where
  message : String
  deriving DecidableEq, Repr

/-- The `auth` part of the transport options. -/
structure Auth where
  user : Option String
  pass : Option String
  deriving DecidableEq, Repr

/-- The transport options handed to `nodemailer.createTransport`. -/
structure SmtpConfig where
  host : Option String
  port : JSNumber
  secure : Bool
  auth : Auth
  deriving DecidableEq, Repr

/-- The record returned by `getConfigFromEnv`. -/
structure Config where
  smtpConfig : SmtpConfig
  from_ : Option String
  to_ : Option String
  deriving DecidableEq, Repr

/-- The argument of `transporter.sendMail`. -/
structure MailOptions where
  from_ : Option String
  to_ : Option String
  subject : String
  text : String
  html : String
  deriving DecidableEq, Repr

/-- The `info` object `transporter.sendMail` resolves with. -/
structure SendInfo where
  messageId : String
  response : Option String
  deriving DecidableEq, Repr

/-- The outcomes of the two operations of a transporter. -/
structure Transporter where
  verify : Except JSError Unit
  sendMail : MailOptions → Except JSError SendInfo

/-- What the script takes from its host: the transport library and the
conversion of a Number to a string in a template literal. -/
structure Host where
  createTransport : SmtpConfig → Transporter
  numberToString : JSNumber → String

/-- The values the script passes to the console or resolves with. -/
inductive JSValue where
  | undefined
  | str (s : String)
  | num (n : JSNumber)
  | bool (b : Bool)
  | error (e : JSError)
  | info (i : SendInfo)
  deriving DecidableEq, Repr

/-- A string-or-`undefined` value as a `JSValue`. -/
def JSValue.ofOption : Option String → JSValue
  | none => .undefined
  | some s => .str s

/-- The observable steps of a run, in order: a `console.log` call, a
`console.error` call, a call of `transporter.verify` and a call of
`transporter.sendMail`. -/
inductive Event where
  | log (args : List JSValue)
  | error (args : List JSValue)
  | verify
  | sendMail (mail : MailOptions)
  deriving DecidableEq, Repr

/-- The settled state of the promise of an async function together with the
events of its run. -/
structure Run where
  trace : List Event
  result : Except JSError JSValue

/-! ## `getConfigFromEnv` -/

/-- The six names checked by `getConfigFromEnv`, in the order of the checks. -/
def requiredVars : List String :=
  ["SMTP_HOST", "SMTP_PORT", "SMTP_USER", "SMTP_PASS", "EMAIL_FROM", "TEST_RECIPIENT"]

/-- The opening words of the message about missing variables. -/
def missingHeader : String :=
  "Missing required environment variables: "

/-- The example `.env` lines that end the message about missing variables. -/
def envTemplate : String :=
  "Create a .env file in the project root with values like:\n" ++
  "  SMTP_HOST=email-smtp.us-east-1.amazonaws.com\n" ++
  "  SMTP_PORT=587\n" ++
  "  SMTP_SECURE=false\n" ++
  "  SMTP_USER=<SMTP username from SES>\n" ++
  "  SMTP_PASS=<SMTP password from SES>\n" ++
  "  EMAIL_FROM=noreply@flux-pro.com\n" ++
  "  TEST_RECIPIENT=your-test-email@example.com\n"

/-- The opening words of the message about an invalid port. -/
def portHeader : String :=
  "SMTP_PORT must be a valid positive number. Received: "

/-- The array `missing` after the six checks. -/
def missingVars (env : Env) : List String :=
  let missing : List String := []
  let missing := if jsNot (env "SMTP_HOST") then missing ++ ["SMTP_HOST"] else missing
  let missing := if jsNot (env "SMTP_PORT") then missing ++ ["SMTP_PORT"] else missing
  let missing := if jsNot (env "SMTP_USER") then missing ++ ["SMTP_USER"] else missing
  let missing := if jsNot (env "SMTP_PASS") then missing ++ ["SMTP_PASS"] else missing
  let missing := if jsNot (env "EMAIL_FROM") then missing ++ ["EMAIL_FROM"] else missing
  let missing := if jsNot (env "TEST_RECIPIENT") then missing ++ ["TEST_RECIPIENT"] else missing
  missing

/-- Load and validate the environment variables. -/
def getConfigFromEnv (env : Env) : Except JSError Config :=
  let missing := missingVars env
  if missing.length ≠ 0 then
    .error ⟨missingHeader ++ ", ".intercalate missing ++ ".\n" ++ envTemplate⟩
  else
    let port := jsNumber (env "SMTP_PORT")
    if port.isNaN || port.leZero then
      .error ⟨portHeader ++ jsString (env "SMTP_PORT")⟩
    else
      let secure := decide (toLowerCase (jsString (env "SMTP_SECURE")) = "true")
      .ok {
        smtpConfig := {
          host := env "SMTP_HOST"
          port := port
          secure := secure
          auth := { user := env "SMTP_USER", pass := env "SMTP_PASS" } }
        from_ := env "EMAIL_FROM"
        to_ := env "TEST_RECIPIENT" }

/-! ## `sendTestEmail` -/

/-- The hints printed after a failed verification. -/
def verifyCauses : String :=
  "\nCommon causes:\n" ++
  "- Incorrect SMTP host / port / secure settings.\n" ++
  "- Wrong SMTP username or password.\n" ++
  "- SES credentials created in a different region than email-smtp.us-east-1.amazonaws.com.\n" ++
  "- Network/firewall blocking outbound traffic on port 587."

/-- The hints printed after a failed send. -/
def sendCauses : String :=
  "\nCommon causes:\n" ++
  "- Sender email is not verified in SES.\n" ++
  "- Recipient email is not verified while SES is still in sandbox mode.\n" ++
  "- SES sending is not yet approved for production.\n" ++
  "- SES sending limits or bounces / complaints issues."

/-- The conversion of a boolean in a template literal. -/
def boolToString (b : Bool) : String :=
  if b then "true" else "false"

/-- The HTML body of the test message. -/
def htmlBody (h : Host) (cfg : Config) : String :=
  "\n        <h2>✅ AWS SES SMTP Test Successful!</h2>" ++
  "\n        <p>This email was sent using your SES SMTP configuration:</p>" ++
  "\n        <ul>" ++
  "\n          <li><strong>Domain:</strong> flux-pro.com</li>" ++
  "\n          <li><strong>Server:</strong> " ++ jsString cfg.smtpConfig.host ++ ":" ++
    h.numberToString cfg.smtpConfig.port ++ "</li>" ++
  "\n          <li><strong>Secure (TLS):</strong> " ++ boolToString cfg.smtpConfig.secure ++ "</li>" ++
  "\n          <li><strong>From:</strong> " ++ jsString cfg.from_ ++ "</li>" ++
  "\n          <li><strong>To:</strong> " ++ jsString cfg.to_ ++ "</li>" ++
  "\n        </ul>" ++
  "\n        <p>If you received this email, your SMTP credentials are working correctly.</p>" ++
  "\n        <hr>" ++
  "\n        <p><small>Sent from FreeResend - Self-hosted email service</small></p>" ++
  "\n      "

/-- The one message the script submits. -/
def testMail (h : Host) (cfg : Config) : MailOptions :=
  { from_ := cfg.from_
    to_ := cfg.to_
    subject := "FreeResend SMTP Test - AWS SES (flux-pro.com)"
    text := "This is a test email sent via AWS SES SMTP using the configuration from your .env file."
    html := htmlBody h cfg }

/-- The events up to and including the call of `transporter.verify`. -/
def traceToVerify (cfg : Config) : List Event :=
  [ .log [.str "📦 Loading configuration from environment variables..."],
    .log [.str "✅ Configuration loaded."],
    .log [.str "   Host   :", .ofOption cfg.smtpConfig.host],
    .log [.str "   Port   :", .num cfg.smtpConfig.port],
    .log [.str "   Secure :", .bool cfg.smtpConfig.secure],
    .log [.str "   From   :", .ofOption cfg.from_],
    .log [.str "   To     :", .ofOption cfg.to_],
    .log [.str "\n🚀 Creating SMTP transport (AWS SES)..."],
    .log [.str "🔍 Verifying SMTP connection..."],
    .verify ]

/-- The events of the `catch` block around `transporter.verify`. -/
def traceVerifyFailed (error : JSError) : List Event :=
  [ .error [.str "\n❌ Failed to verify SMTP connection."],
    .error [.str "   Error message:", .str error.message],
    .error [.str verifyCauses] ]

/-- The events from a successful verification up to and including the call of
`transporter.sendMail`. -/
def traceToSend (h : Host) (cfg : Config) : List Event :=
  [ .log [.str "✅ SMTP connection verified successfully!"],
    .log [.str "\n✉️  Sending test email via AWS SES SMTP..."],
    .sendMail (testMail h cfg) ]

/-- The events of the `catch` block around `transporter.sendMail`. -/
def traceSendFailed (error : JSError) : List Event :=
  [ .error [.str "\n❌ Failed to send email via SMTP."],
    .error [.str "   Error message:", .str error.message],
    .error [.str sendCauses] ]

/-- The events after `transporter.sendMail` has resolved with `info`. -/
def traceSent (info : SendInfo) : List Event :=
  [ .log [.str "\n✅ Email sent successfully!"],
    .log [.str "   Message ID:", .str info.messageId] ] ++
  (if !jsNot info.response then
    [ .log [.str "   Response  :", .ofOption info.response] ]
  else [])

/-- Test sending an email: load the configuration, verify the connection,
send one message. The async function has no `return` statement, so its promise
resolves with `undefined`. -/
def sendTestEmail (h : Host) (env : Env) : Run :=
  match getConfigFromEnv env with
  | .error e =>
    { trace := [.log [.str "📦 Loading configuration from environment variables..."]]
      result := .error e }
  | .ok cfg =>
    let transporter := h.createTransport cfg.smtpConfig
    match transporter.verify with
    | .error error =>
      { trace := traceToVerify cfg ++ traceVerifyFailed error
        result := .error error }
    | .ok _ =>
      match transporter.sendMail (testMail h cfg) with
      | .error error =>
        { trace := traceToVerify cfg ++ traceToSend h cfg ++ traceSendFailed error
          result := .error error }
      | .ok info =>
        { trace := traceToVerify cfg ++ traceToSend h cfg ++ traceSent info
          result := .ok .undefined }

/-! ## The script -/

/-- The end of a process: everything it printed and called, and its exit code. -/
structure Exit where
  trace : List Event
  code : Nat

/-- The top-level statement: `sendTestEmail().then(...).catch(...)`. -/
def main (h : Host) (env : Env) : Exit :=
  let run := sendTestEmail h env
  match run.result with
  | .ok _ =>
    { trace := run.trace ++ [.log [.str "\n🎉 Test completed successfully!"]]
      code := 0 }
  | .error error =>
    { trace := run.trace ++
        [ .error [.str "\n❌ SMTP test failed. See details above."],
          .error [.str "Full error object for debugging:", .error error] ]
      code := 1 }

/-! ## Vocabulary of the properties -/

/-- Equality of settled results is decidable when it is for both kinds of
outcome. -/
instance decEqExcept {ε α : Type} [DecidableEq ε] [DecidableEq α] :
    DecidableEq (Except ε α) := fun a b =>
  match a, b with
  | .ok x, .ok y =>
    if h : x = y then isTrue (by rw [h]) else isFalse (fun h1 => h (by cases h1; rfl))
  | .error x, .error y =>
    if h : x = y then isTrue (by rw [h]) else isFalse (fun h1 => h (by cases h1; rfl))
  | .ok _, .error _ => isFalse (fun h1 => by cases h1)
  | .error _, .ok _ => isFalse (fun h1 => by cases h1)

/-- The text `needle` occurs somewhere in the text `hay`. -/
def occursIn (needle hay : String) : Prop :=
  needle.data <:+: hay.data

/-- A variable is unset or empty. -/
def unsetOrEmpty (env : Env) (v : String) : Prop :=
  env v = none ∨ env v = some ""

/-- Whether a variable is unset or empty can be computed. -/
instance decUnsetOrEmpty (env : Env) (v : String) : Decidable (unsetOrEmpty env v) := by
  unfold unsetOrEmpty
  infer_instance

/-- The number of calls of `transporter.sendMail` in a trace. -/
def sendAttempts (t : List Event) : Nat :=
  (t.filter (fun ev => match ev with
    | .sendMail _ => true
    | _ => false)).length

/-- The text equals `true` up to the case of its four letters. -/
def equalsTrueIgnoringCase (s : String) : Prop :=
  List.Forall₂ (fun c l => c = l ∨ c = Char.toUpper l) s.data ['t', 'r', 'u', 'e']

/-- An environment given by a list of assignments. -/
def envOf (l : List (String × String)) : Env :=
  fun v => l.lookup v

/-- A complete environment with the given port and password. -/
def sampleEnv (port pass : String) : Env :=
  envOf [("SMTP_HOST", "email-smtp.us-east-1.amazonaws.com"), ("SMTP_PORT", port),
    ("SMTP_USER", "AKIAEXAMPLE"), ("SMTP_PASS", pass),
    ("EMAIL_FROM", "noreply@flux-pro.com"), ("TEST_RECIPIENT", "ops@example.com")]

/-- The configuration loaded from `sampleEnv` when `port` converts to `n`. -/
def sampleConfig (n : JSNumber) (pass : String) : Config :=
  { smtpConfig := {
      host := some "email-smtp.us-east-1.amazonaws.com"
      port := n
      secure := false
      auth := { user := some "AKIAEXAMPLE", pass := some pass } }
    from_ := some "noreply@flux-pro.com"
    to_ := some "ops@example.com" }

/-- The sample environment with port `587` and `SMTP_SECURE` set to `flag`. -/
def secureEnv (flag : String) : Env :=
  fun v => if v = "SMTP_SECURE" then some flag else sampleEnv "587" "s3cret" v

/-- The configuration loaded from `secureEnv` when the flag converts to
`secure`. -/
def sampleConfigSecure (secure : Bool) : Config :=
  { sampleConfig (.fin false 5163306604036096 (-43)) "s3cret" with smtpConfig.secure := secure }

/-- A host whose transporter has the given outcomes whatever the options, and
which renders every number as `587`, the port of the sample runs. -/
def stubHost (verify : Except JSError Unit) (send : Except JSError SendInfo) : Host :=
  { createTransport := fun _ => { verify := verify, sendMail := fun _ => send }
    numberToString := fun _ => "587" }

/-! ## Lemmas on the loader -/

theorem jsNot_iff (env : Env) (v : String) :
    jsNot (env v) = true ↔ unsetOrEmpty env v := by
  unfold unsetOrEmpty
  cases h : env v with
  | none => simp [jsNot]
  | some s => simp [jsNot]

theorem missingVars_eq_filter (env : Env) :
    missingVars env = requiredVars.filter (fun v => jsNot (env v)) := by
  unfold missingVars requiredVars
  simp only [List.filter]
  cases jsNot (env "SMTP_HOST") <;> cases jsNot (env "SMTP_PORT") <;>
    cases jsNot (env "SMTP_USER") <;> cases jsNot (env "SMTP_PASS") <;>
    cases jsNot (env "EMAIL_FROM") <;> cases jsNot (env "TEST_RECIPIENT") <;> rfl

theorem mem_missingVars (env : Env) (v : String) :
    v ∈ missingVars env ↔ v ∈ requiredVars ∧ unsetOrEmpty env v := by
  rw [missingVars_eq_filter, List.mem_filter, jsNot_iff]

theorem missingVars_eq_nil_iff (env : Env) :
    missingVars env = [] ↔ ∀ v ∈ requiredVars, ¬ unsetOrEmpty env v := by
  rw [List.eq_nil_iff_forall_not_mem]
  constructor
  · intro h v hv hu
    exact h v ((mem_missingVars env v).2 ⟨hv, hu⟩)
  · intro h v hv
    exact h v ((mem_missingVars env v).1 hv).1 ((mem_missingVars env v).1 hv).2

theorem getConfigFromEnv_of_missing (env : Env) (h : missingVars env ≠ []) :
    getConfigFromEnv env =
      .error ⟨missingHeader ++ ", ".intercalate (missingVars env) ++ ".\n" ++ envTemplate⟩ := by
  unfold getConfigFromEnv
  have : (missingVars env).length ≠ 0 := by
    intro h0
    exact h (List.length_eq_zero.1 h0)
  simp [this]

theorem getConfigFromEnv_of_complete (env : Env) (h : missingVars env = []) :
    getConfigFromEnv env =
      if (jsNumber (env "SMTP_PORT")).isNaN || (jsNumber (env "SMTP_PORT")).leZero then
        .error ⟨portHeader ++ jsString (env "SMTP_PORT")⟩
      else
        .ok {
          smtpConfig := {
            host := env "SMTP_HOST"
            port := jsNumber (env "SMTP_PORT")
            secure := decide (toLowerCase (jsString (env "SMTP_SECURE")) = "true")
            auth := { user := env "SMTP_USER", pass := env "SMTP_PASS" } }
          from_ := env "EMAIL_FROM"
          to_ := env "TEST_RECIPIENT" } := by
  unfold getConfigFromEnv
  simp [h]

theorem occursIn_append_right (a b : String) : occursIn b (a ++ b) := by
  unfold occursIn
  rw [String.data_append]
  exact (List.suffix_append _ _).isInfix

theorem gtZero_of_not_leZero (n : JSNumber) (h1 : n.isNaN = false) (h2 : n.leZero = false) :
    n.gtZero = true := by
  cases n with
  | nan => simp [JSNumber.isNaN] at h1
  | inf neg => simpa [JSNumber.leZero, JSNumber.gtZero] using h2
  | fin neg mant exp =>
    simp [JSNumber.leZero] at h2
    simp [JSNumber.gtZero, h2.1, h2.2]

set_option maxRecDepth 8000 in
theorem portMessage_shorter :
    (portHeader ++ "abc").data.length < envTemplate.data.length := by
  decide

/-! ## The loader -/

/-- C2: when at least one of the six required variables is unset or empty,
`getConfigFromEnv` fails, and the list after the opening words of its message
holds exactly the required variables that are unset or empty. -/
theorem getConfigFromEnv_lists_every_missing (env : Env)
    (hmiss : ∃ v ∈ requiredVars, unsetOrEmpty env v) :
    getConfigFromEnv env =
        .error ⟨missingHeader ++ ", ".intercalate (missingVars env) ++ ".\n" ++ envTemplate⟩ ∧
      (∀ v ∈ requiredVars, unsetOrEmpty env v → v ∈ missingVars env) ∧
      (∀ v ∈ requiredVars, ¬ unsetOrEmpty env v → v ∉ missingVars env) ∧
      (∀ v ∈ missingVars env, v ∈ requiredVars) := by
  obtain ⟨v, hv, hu⟩ := hmiss
  have hne : missingVars env ≠ [] := by
    intro h0
    exact (missingVars_eq_nil_iff env).1 h0 v hv hu
  refine ⟨getConfigFromEnv_of_missing env hne, ?_, ?_, ?_⟩
  · intro w hw hwu
    exact (mem_missingVars env w).2 ⟨hw, hwu⟩
  · intro w _ hwu hmem
    exact hwu ((mem_missingVars env w).1 hmem).2
  · intro w hmem
    exact ((mem_missingVars env w).1 hmem).1

/-- Witness of C2: with the port and the password empty, the message lists
both names. -/
theorem getConfigFromEnv_lists_every_missing_witness :
    (∃ v ∈ requiredVars, unsetOrEmpty (sampleEnv "" "") v) ∧
      getConfigFromEnv (sampleEnv "" "") =
        .error ⟨missingHeader ++ "SMTP_PORT, SMTP_PASS" ++ ".\n" ++ envTemplate⟩ :=
  ⟨⟨"SMTP_PORT", by decide, Or.inr rfl⟩,
    (getConfigFromEnv_lists_every_missing (sampleEnv "" "")
      ⟨"SMTP_PORT", by decide, Or.inr rfl⟩).1⟩

/-- C3: when the six required variables are set and non-empty and `SMTP_PORT`
converts to NaN or to a number that is not positive, `getConfigFromEnv` fails
and its message ends with the raw text of `SMTP_PORT`. -/
theorem getConfigFromEnv_rejects_port (env : Env) (raw : String)
    (hset : ∀ v ∈ requiredVars, ¬ unsetOrEmpty env v)
    (hraw : env "SMTP_PORT" = some raw)
    (hbad : (stringToNumber raw).isNaN = true ∨ (stringToNumber raw).leZero = true) :
    getConfigFromEnv env = .error ⟨portHeader ++ raw⟩ ∧
      occursIn raw (portHeader ++ raw) := by
  refine ⟨?_, occursIn_append_right _ _⟩
  rw [getConfigFromEnv_of_complete env ((missingVars_eq_nil_iff env).2 hset)]
  have : ((jsNumber (env "SMTP_PORT")).isNaN || (jsNumber (env "SMTP_PORT")).leZero) = true := by
    simp only [hraw, jsNumber, Bool.or_eq_true]
    exact hbad
  rw [if_pos this, hraw]
  rfl

/-- Witness of C3: the port `abc`. -/
theorem getConfigFromEnv_rejects_port_witness :
    (∀ v ∈ requiredVars, ¬ unsetOrEmpty (sampleEnv "abc" "s3cret") v) ∧
      sampleEnv "abc" "s3cret" "SMTP_PORT" = some "abc" ∧
      ((stringToNumber "abc").isNaN = true ∨ (stringToNumber "abc").leZero = true) ∧
      getConfigFromEnv (sampleEnv "abc" "s3cret") =
        .error ⟨"SMTP_PORT must be a valid positive number. Received: abc"⟩ :=
  ⟨by decide, rfl, Or.inl (by decide),
    (getConfigFromEnv_rejects_port (sampleEnv "abc" "s3cret") "abc" (by decide) rfl
      (Or.inl (by decide))).1⟩

/-- C8, as the code has it: on success the returned port is the Number
converted from `SMTP_PORT`, it is not NaN and it is greater than zero; the
loader fails whenever that Number is NaN or not greater than zero. -/
theorem getConfigFromEnv_port_positive (env : Env) :
    (∀ cfg, getConfigFromEnv env = .ok cfg →
      cfg.smtpConfig.port = jsNumber (env "SMTP_PORT") ∧
        cfg.smtpConfig.port.isNaN = false ∧ cfg.smtpConfig.port.gtZero = true) ∧
      ((jsNumber (env "SMTP_PORT")).isNaN = true ∨ (jsNumber (env "SMTP_PORT")).gtZero = false →
        ∃ e, getConfigFromEnv env = .error e) := by
  constructor
  · intro cfg hcfg
    by_cases hm : missingVars env = []
    · rw [getConfigFromEnv_of_complete env hm] at hcfg
      split at hcfg
      · cases hcfg
      · rename_i hgood
        simp only [Bool.or_eq_true, not_or, Bool.not_eq_true] at hgood
        cases hcfg
        exact ⟨rfl, hgood.1, gtZero_of_not_leZero _ hgood.1 hgood.2⟩
    · rw [getConfigFromEnv_of_missing env hm] at hcfg
      cases hcfg
  · intro hbad
    by_cases hm : missingVars env = []
    · rw [getConfigFromEnv_of_complete env hm]
      split
      · exact ⟨_, rfl⟩
      · rename_i hgood
        simp only [Bool.or_eq_true, not_or, Bool.not_eq_true] at hgood
        have := gtZero_of_not_leZero _ hgood.1 hgood.2
        rcases hbad with hb | hb
        · rw [hgood.1] at hb
          cases hb
        · rw [this] at hb
          cases hb
    · exact ⟨_, getConfigFromEnv_of_missing env hm⟩

/-- Witness of C8: the port `587` is loaded as the Number 587. -/
theorem getConfigFromEnv_port_positive_witness :
    getConfigFromEnv (sampleEnv "587" "s3cret") =
        .ok (sampleConfig (.fin false 5163306604036096 (-43)) "s3cret") ∧
      (sampleConfig (.fin false 5163306604036096 (-43)) "s3cret").smtpConfig.port.gtZero = true :=
  ⟨by decide, ((getConfigFromEnv_port_positive (sampleEnv "587" "s3cret")).1
    (sampleConfig (.fin false 5163306604036096 (-43)) "s3cret") (by decide)).2.2⟩

/-- C8 fails as stated: the ports `1.5` and `Infinity` are accepted, and the
returned port is then not an integer, respectively not finite. -/
theorem getConfigFromEnv_port_not_integer :
    (∃ cfg, getConfigFromEnv (sampleEnv "1.5" "s3cret") = .ok cfg ∧
      cfg.smtpConfig.port = .fin false 6755399441055744 (-52) ∧
      cfg.smtpConfig.port.isInteger = false) ∧
    (∃ cfg, getConfigFromEnv (sampleEnv "Infinity" "s3cret") = .ok cfg ∧
      cfg.smtpConfig.port = .inf false ∧
      cfg.smtpConfig.port.isFinite = false) :=
  ⟨⟨sampleConfig (.fin false 6755399441055744 (-52)) "s3cret", by decide, rfl, by decide⟩,
    ⟨sampleConfig (.inf false) "s3cret", by decide, rfl, rfl⟩⟩

/-- C9, as the code has it: a failure of `getConfigFromEnv` is one of two
messages. When required variables are unset or empty, the message lists each
of them and ends with the example lines, whatever the port. When none is, the
message echoes the raw text of `SMTP_PORT`. -/
theorem getConfigFromEnv_error_shape (env : Env) (e : JSError)
    (hfail : getConfigFromEnv env = .error e) :
    (missingVars env ≠ [] ∧
      e.message = missingHeader ++ ", ".intercalate (missingVars env) ++ ".\n" ++ envTemplate ∧
      (∀ v ∈ requiredVars, v ∈ missingVars env ↔ unsetOrEmpty env v) ∧
      occursIn envTemplate e.message) ∨
    (missingVars env = [] ∧
      e.message = portHeader ++ jsString (env "SMTP_PORT") ∧
      occursIn (jsString (env "SMTP_PORT")) e.message) := by
  by_cases hm : missingVars env = []
  · right
    rw [getConfigFromEnv_of_complete env hm] at hfail
    split at hfail
    · cases hfail
      exact ⟨hm, rfl, occursIn_append_right _ _⟩
    · cases hfail
  · left
    rw [getConfigFromEnv_of_missing env hm] at hfail
    cases hfail
    refine ⟨hm, rfl, ?_, occursIn_append_right _ _⟩
    intro v hv
    rw [mem_missingVars]
    exact ⟨fun h => h.2, fun h => ⟨hv, h⟩⟩

/-- Witness of C9: the failure on the port `abc`, which is of the second
kind. -/
theorem getConfigFromEnv_error_shape_witness :
    getConfigFromEnv (sampleEnv "abc" "s3cret") = .error ⟨portHeader ++ "abc"⟩ ∧
      missingVars (sampleEnv "abc" "s3cret") = [] ∧
      occursIn (jsString (sampleEnv "abc" "s3cret" "SMTP_PORT")) (portHeader ++ "abc") :=
  ⟨rfl, (getConfigFromEnv_error_shape (sampleEnv "abc" "s3cret") ⟨portHeader ++ "abc"⟩ rfl).elim
    (fun h => absurd (by decide) h.1) (fun h => ⟨h.1, h.2.2⟩)⟩

/-- C9 fails as stated. With every variable set and the port `abc`, the message
is shorter than the example lines, so it does not contain them. With
`SMTP_HOST` unset, the message is the same for the port `abc` as for the port
`587`, so it does not report the invalid port. -/
theorem getConfigFromEnv_error_not_complete :
    (∃ e, getConfigFromEnv (sampleEnv "abc" "s3cret") = .error e ∧
      ¬ occursIn envTemplate e.message) ∧
    (¬ unsetOrEmpty (envOf [("SMTP_PORT", "abc")]) "SMTP_PORT" ∧
      (stringToNumber "abc").isNaN = true ∧
      getConfigFromEnv (envOf [("SMTP_PORT", "abc")]) =
        getConfigFromEnv (envOf [("SMTP_PORT", "587")])) := by
  refine ⟨⟨_, rfl, ?_⟩, by decide, by decide, rfl⟩
  intro h
  exact absurd h.length_le (not_le.2 portMessage_shorter)

/-! ## The secure flag -/

theorem char_toLower_eq (c l : Char) (hl : l ∈ ['t', 'r', 'u', 'e']) :
    c.toLower = l ↔ c = l ∨ c = l.toUpper := by
  have hc : Char.ofNat c.toNat = c := Char.ofNat_toNat c
  by_cases h : 65 ≤ c.toNat ∧ c.toNat ≤ 90
  · obtain ⟨h1, h2⟩ := h
    generalize c.toNat = n at hc h1 h2
    subst hc
    simp only [List.mem_cons, List.mem_singleton, List.not_mem_nil, or_false] at hl
    interval_cases n <;> rcases hl with rfl | rfl | rfl | rfl <;> decide
  · have hlow : c.toLower = c := by
      unfold Char.toLower
      simp only [ge_iff_le]
      rw [if_neg h]
    rw [hlow]
    constructor
    · exact Or.inl
    · rintro (h1 | h1)
      · exact h1
      · exfalso
        apply h
        subst h1
        simp only [List.mem_cons, List.mem_singleton, List.not_mem_nil, or_false] at hl
        rcases hl with rfl | rfl | rfl | rfl <;> decide

theorem toLowerCase_eq_true_iff (s : String) :
    toLowerCase s = "true" ↔ equalsTrueIgnoringCase s := by
  unfold toLowerCase equalsTrueIgnoringCase
  have hlit : ("true" : String) = String.mk ['t', 'r', 'u', 'e'] := by decide
  rw [hlit, String.ext_iff]
  show List.map Char.toLower s.data = ['t', 'r', 'u', 'e'] ↔ _
  have ht := fun c => char_toLower_eq c 't' (by decide)
  have hr := fun c => char_toLower_eq c 'r' (by decide)
  have hu := fun c => char_toLower_eq c 'u' (by decide)
  have he := fun c => char_toLower_eq c 'e' (by decide)
  rcases s.data with _ | ⟨a, _ | ⟨b, _ | ⟨c, _ | ⟨d, _ | ⟨e, t⟩⟩⟩⟩⟩ <;>
    simp [ht, hr, hu, he]

theorem getConfigFromEnv_ok (env : Env) (cfg : Config) (h : getConfigFromEnv env = .ok cfg) :
    missingVars env = [] ∧
      cfg = {
        smtpConfig := {
          host := env "SMTP_HOST"
          port := jsNumber (env "SMTP_PORT")
          secure := decide (toLowerCase (jsString (env "SMTP_SECURE")) = "true")
          auth := { user := env "SMTP_USER", pass := env "SMTP_PASS" } }
        from_ := env "EMAIL_FROM"
        to_ := env "TEST_RECIPIENT" } := by
  by_cases hm : missingVars env = []
  · rw [getConfigFromEnv_of_complete env hm] at h
    split at h
    · cases h
    · cases h
      exact ⟨hm, rfl⟩
  · rw [getConfigFromEnv_of_missing env hm] at h
    cases h

/-- C4: on success the secure flag is true exactly when `SMTP_SECURE` is set
and equals `true` up to letter case; when it is unset the flag is false. -/
theorem getConfigFromEnv_secure (env : Env) (cfg : Config)
    (h : getConfigFromEnv env = .ok cfg) :
    (cfg.smtpConfig.secure = true ↔
      ∃ v, env "SMTP_SECURE" = some v ∧ equalsTrueIgnoringCase v) ∧
    (env "SMTP_SECURE" = none → cfg.smtpConfig.secure = false) := by
  obtain ⟨_, rfl⟩ := getConfigFromEnv_ok env cfg h
  simp only [decide_eq_true_eq, decide_eq_false_iff_not]
  cases hs : env "SMTP_SECURE" with
  | none =>
    have hu : ¬ toLowerCase (jsString none) = "true" := by decide
    simp [hu]
  | some v =>
    simp [jsString, toLowerCase_eq_true_iff]

/-- Witness of C4: `SMTP_SECURE=TRUE` in a complete environment. -/
theorem getConfigFromEnv_secure_witness :
    getConfigFromEnv (secureEnv "TRUE") = .ok (sampleConfigSecure true) ∧
      (((sampleConfigSecure true).smtpConfig.secure = true ↔
        ∃ v, secureEnv "TRUE" "SMTP_SECURE" = some v ∧ equalsTrueIgnoringCase v) ∧
      (secureEnv "TRUE" "SMTP_SECURE" = none →
        (sampleConfigSecure true).smtpConfig.secure = false)) :=
  ⟨by decide, getConfigFromEnv_secure (secureEnv "TRUE") (sampleConfigSecure true) (by decide)⟩

/-! ## The runner -/

theorem sendTestEmail_of_verify_error (h : Host) (env : Env) (cfg : Config) (err : JSError)
    (hcfg : getConfigFromEnv env = .ok cfg)
    (hver : (h.createTransport cfg.smtpConfig).verify = .error err) :
    sendTestEmail h env =
      { trace := traceToVerify cfg ++ traceVerifyFailed err, result := .error err } := by
  unfold sendTestEmail
  simp only [hcfg, hver]

theorem sendTestEmail_of_send_error (h : Host) (env : Env) (cfg : Config) (err : JSError)
    (hcfg : getConfigFromEnv env = .ok cfg)
    (hver : (h.createTransport cfg.smtpConfig).verify = .ok ())
    (hsend : (h.createTransport cfg.smtpConfig).sendMail (testMail h cfg) = .error err) :
    sendTestEmail h env =
      { trace := traceToVerify cfg ++ traceToSend h cfg ++ traceSendFailed err
        result := .error err } := by
  unfold sendTestEmail
  simp only [hcfg, hver, hsend]

theorem sendTestEmail_of_sent (h : Host) (env : Env) (cfg : Config) (info : SendInfo)
    (hcfg : getConfigFromEnv env = .ok cfg)
    (hver : (h.createTransport cfg.smtpConfig).verify = .ok ())
    (hsend : (h.createTransport cfg.smtpConfig).sendMail (testMail h cfg) = .ok info) :
    sendTestEmail h env =
      { trace := traceToVerify cfg ++ traceToSend h cfg ++ traceSent info
        result := .ok .undefined } := by
  unfold sendTestEmail
  simp only [hcfg, hver, hsend]

theorem sendTestEmail_of_config_error (h : Host) (env : Env) (e : JSError)
    (hcfg : getConfigFromEnv env = .error e) :
    sendTestEmail h env =
      { trace := [.log [.str "📦 Loading configuration from environment variables..."]]
        result := .error e } := by
  unfold sendTestEmail
  simp only [hcfg]

/-- C1: with a valid configuration and a failing `verify`, `sendTestEmail`
rejects with the error of `verify`, reports the failure of the verification on
standard error with that error's message, and never calls `sendMail`. -/
theorem sendTestEmail_verify_failure (h : Host) (env : Env) (cfg : Config) (err : JSError)
    (hcfg : getConfigFromEnv env = .ok cfg)
    (hver : (h.createTransport cfg.smtpConfig).verify = .error err) :
    (sendTestEmail h env).result = .error err ∧
      sendAttempts (sendTestEmail h env).trace = 0 ∧
      Event.error [.str "\n❌ Failed to verify SMTP connection."] ∈ (sendTestEmail h env).trace ∧
      Event.error [.str "   Error message:", .str err.message] ∈ (sendTestEmail h env).trace := by
  rw [sendTestEmail_of_verify_error h env cfg err hcfg hver]
  refine ⟨rfl, ?_, ?_, ?_⟩
  · simp [sendAttempts, traceToVerify, traceVerifyFailed]
  · simp [traceToVerify, traceVerifyFailed]
  · simp [traceToVerify, traceVerifyFailed]

/-- Witness of C1: a transport that refuses the connection. -/
theorem sendTestEmail_verify_failure_witness :
    getConfigFromEnv (sampleEnv "587" "s3cret") =
        .ok (sampleConfig (.fin false 5163306604036096 (-43)) "s3cret") ∧
      (sendTestEmail (stubHost (.error ⟨"ECONNREFUSED"⟩) (.ok ⟨"abc123", none⟩))
        (sampleEnv "587" "s3cret")).result = .error ⟨"ECONNREFUSED"⟩ ∧
      sendAttempts (sendTestEmail (stubHost (.error ⟨"ECONNREFUSED"⟩) (.ok ⟨"abc123", none⟩))
        (sampleEnv "587" "s3cret")).trace = 0 :=
  ⟨by decide,
    (sendTestEmail_verify_failure (stubHost (.error ⟨"ECONNREFUSED"⟩) (.ok ⟨"abc123", none⟩))
      (sampleEnv "587" "s3cret") (sampleConfig (.fin false 5163306604036096 (-43)) "s3cret")
      ⟨"ECONNREFUSED"⟩ (by decide) rfl).1,
    (sendTestEmail_verify_failure (stubHost (.error ⟨"ECONNREFUSED"⟩) (.ok ⟨"abc123", none⟩))
      (sampleEnv "587" "s3cret") (sampleConfig (.fin false 5163306604036096 (-43)) "s3cret")
      ⟨"ECONNREFUSED"⟩ (by decide) rfl).2.1⟩

/-- C5, as the code has it: with a valid configuration and a transport whose
`verify` and `sendMail` both succeed, `sendTestEmail` resolves with
`undefined`, calls `sendMail` once, and prints the message id of the result on
standard output. -/
theorem sendTestEmail_prints_message_id (h : Host) (env : Env) (cfg : Config) (info : SendInfo)
    (hcfg : getConfigFromEnv env = .ok cfg)
    (hver : (h.createTransport cfg.smtpConfig).verify = .ok ())
    (hsend : (h.createTransport cfg.smtpConfig).sendMail (testMail h cfg) = .ok info) :
    (sendTestEmail h env).result = .ok .undefined ∧
      sendAttempts (sendTestEmail h env).trace = 1 ∧
      Event.log [.str "   Message ID:", .str info.messageId] ∈ (sendTestEmail h env).trace := by
  rw [sendTestEmail_of_sent h env cfg info hcfg hver hsend]
  refine ⟨rfl, ?_, ?_⟩
  · cases hr : jsNot info.response <;>
      simp [sendAttempts, traceToVerify, traceToSend, traceSent, hr]
  · simp [traceToVerify, traceToSend, traceSent]

/-- Witness of C5: a transport that accepts the message as `abc123`. -/
theorem sendTestEmail_prints_message_id_witness :
    getConfigFromEnv (sampleEnv "587" "s3cret") =
        .ok (sampleConfig (.fin false 5163306604036096 (-43)) "s3cret") ∧
      Event.log [.str "   Message ID:", .str "abc123"] ∈
        (sendTestEmail (stubHost (.ok ()) (.ok ⟨"abc123", some "250 Ok"⟩))
          (sampleEnv "587" "s3cret")).trace :=
  ⟨by decide,
    (sendTestEmail_prints_message_id (stubHost (.ok ()) (.ok ⟨"abc123", some "250 Ok"⟩))
      (sampleEnv "587" "s3cret") (sampleConfig (.fin false 5163306604036096 (-43)) "s3cret")
      ⟨"abc123", some "250 Ok"⟩ (by decide) rfl rfl).2.2⟩

/-- C5 fails as stated: with a transport that accepts the message as `abc123`,
`sendTestEmail` resolves with `undefined`, not with a report holding the id. -/
theorem sendTestEmail_returns_no_report :
    (sendTestEmail (stubHost (.ok ()) (.ok ⟨"abc123", some "250 Ok"⟩))
        (sampleEnv "587" "s3cret")).result = .ok .undefined ∧
      ¬ ∃ report : SendInfo,
        (sendTestEmail (stubHost (.ok ()) (.ok ⟨"abc123", some "250 Ok"⟩))
          (sampleEnv "587" "s3cret")).result = .ok (.info report) ∧
        report.messageId = "abc123" := by
  have hrun : (sendTestEmail (stubHost (.ok ()) (.ok ⟨"abc123", some "250 Ok"⟩))
      (sampleEnv "587" "s3cret")).result = .ok .undefined := by decide
  refine ⟨hrun, ?_⟩
  rintro ⟨report, hreport, _⟩
  rw [hrun] at hreport
  cases hreport

/-- C6: with a valid configuration, a succeeding `verify` and a failing
`sendMail`, `sendTestEmail` rejects with an error whose message contains the
message of the error of `sendMail`, and reports the failure of the send on
standard error. -/
theorem sendTestEmail_send_failure (h : Host) (env : Env) (cfg : Config) (err : JSError)
    (hcfg : getConfigFromEnv env = .ok cfg)
    (hver : (h.createTransport cfg.smtpConfig).verify = .ok ())
    (hsend : (h.createTransport cfg.smtpConfig).sendMail (testMail h cfg) = .error err) :
    (∃ failure, (sendTestEmail h env).result = .error failure ∧
        occursIn err.message failure.message) ∧
      Event.error [.str "\n❌ Failed to send email via SMTP."] ∈ (sendTestEmail h env).trace ∧
      Event.error [.str "   Error message:", .str err.message] ∈ (sendTestEmail h env).trace := by
  rw [sendTestEmail_of_send_error h env cfg err hcfg hver hsend]
  refine ⟨⟨err, rfl, List.infix_refl _⟩, ?_, ?_⟩
  · simp [traceToVerify, traceToSend, traceSendFailed]
  · simp [traceToVerify, traceToSend, traceSendFailed]

/-- Witness of C6: a relay that rejects the sender. -/
theorem sendTestEmail_send_failure_witness :
    getConfigFromEnv (sampleEnv "587" "s3cret") =
        .ok (sampleConfig (.fin false 5163306604036096 (-43)) "s3cret") ∧
      Event.error [.str "   Error message:", .str "Email address is not verified"] ∈
        (sendTestEmail (stubHost (.ok ()) (.error ⟨"Email address is not verified"⟩))
          (sampleEnv "587" "s3cret")).trace :=
  ⟨by decide,
    (sendTestEmail_send_failure (stubHost (.ok ()) (.error ⟨"Email address is not verified"⟩))
      (sampleEnv "587" "s3cret") (sampleConfig (.fin false 5163306604036096 (-43)) "s3cret")
      ⟨"Email address is not verified"⟩ (by decide) rfl rfl).2.2⟩

/-- C7: the exit code is 0 exactly when the configuration loads, `verify`
succeeds and `sendMail` succeeds; otherwise it is 1. -/
theorem main_exit_code (h : Host) (env : Env) :
    ((main h env).code = 0 ↔
      ∃ cfg info, getConfigFromEnv env = .ok cfg ∧
        (h.createTransport cfg.smtpConfig).verify = .ok () ∧
        (h.createTransport cfg.smtpConfig).sendMail (testMail h cfg) = .ok info) ∧
    ((main h env).code ≠ 0 → (main h env).code = 1) := by
  cases hcfg : getConfigFromEnv env with
  | error e =>
    have hrun := sendTestEmail_of_config_error h env e hcfg
    simp [main, hrun]
  | ok cfg =>
    cases hver : (h.createTransport cfg.smtpConfig).verify with
    | error err =>
      have hrun := sendTestEmail_of_verify_error h env cfg err hcfg hver
      simp [main, hrun, hver]
    | ok u =>
      cases hsend : (h.createTransport cfg.smtpConfig).sendMail (testMail h cfg) with
      | error err =>
        have hrun := sendTestEmail_of_send_error h env cfg err hcfg hver hsend
        simp [main, hrun, hsend]
      | ok info =>
        have hrun := sendTestEmail_of_sent h env cfg info hcfg hver hsend
        simp [main, hrun, hsend, hver]

/-! ## The password -/

theorem missingVars_congr (env1 env2 : Env)
    (hagree : ∀ v, v ≠ "SMTP_PASS" → env1 v = env2 v)
    (hp1 : ¬ unsetOrEmpty env1 "SMTP_PASS") (hp2 : ¬ unsetOrEmpty env2 "SMTP_PASS") :
    missingVars env1 = missingVars env2 := by
  have e1 : jsNot (env1 "SMTP_PASS") = false := by
    rw [← Bool.not_eq_true, jsNot_iff]
    exact hp1
  have e2 : jsNot (env2 "SMTP_PASS") = false := by
    rw [← Bool.not_eq_true, jsNot_iff]
    exact hp2
  unfold missingVars
  rw [e1, e2, hagree "SMTP_HOST" (by decide), hagree "SMTP_PORT" (by decide),
    hagree "SMTP_USER" (by decide), hagree "EMAIL_FROM" (by decide),
    hagree "TEST_RECIPIENT" (by decide)]

theorem sendTestEmail_congr (h : Host) (env1 env2 : Env)
    (hagree : ∀ v, v ≠ "SMTP_PASS" → env1 v = env2 v)
    (hp1 : ¬ unsetOrEmpty env1 "SMTP_PASS") (hp2 : ¬ unsetOrEmpty env2 "SMTP_PASS")
    (hsame : ∀ c1 c2, getConfigFromEnv env1 = .ok c1 → getConfigFromEnv env2 = .ok c2 →
      (h.createTransport c1.smtpConfig).verify = (h.createTransport c2.smtpConfig).verify ∧
      ∀ m, (h.createTransport c1.smtpConfig).sendMail m =
        (h.createTransport c2.smtpConfig).sendMail m) :
    sendTestEmail h env1 = sendTestEmail h env2 := by
  have hmv := missingVars_congr env1 env2 hagree hp1 hp2
  have hport := hagree "SMTP_PORT" (by decide)
  by_cases hm : missingVars env2 = []
  · have hm1 : missingVars env1 = [] := hmv.trans hm
    have hc1 := getConfigFromEnv_of_complete env1 hm1
    have hc2 := getConfigFromEnv_of_complete env2 hm
    rw [hport] at hc1
    by_cases hbad : ((jsNumber (env2 "SMTP_PORT")).isNaN ||
        (jsNumber (env2 "SMTP_PORT")).leZero) = true
    · rw [if_pos hbad] at hc1 hc2
      rw [sendTestEmail_of_config_error h env1 _ hc1,
        sendTestEmail_of_config_error h env2 _ hc2]
    · rw [if_neg hbad, hagree "SMTP_HOST" (by decide), hagree "SMTP_USER" (by decide),
        hagree "EMAIL_FROM" (by decide), hagree "TEST_RECIPIENT" (by decide),
        hagree "SMTP_SECURE" (by decide)] at hc1
      rw [if_neg hbad] at hc2
      obtain ⟨hv, hs⟩ := hsame _ _ hc1 hc2
      unfold sendTestEmail
      rw [hc1, hc2]
      simp only
      rw [hv]
      cases (h.createTransport _).verify with
      | error err => rfl
      | ok u =>
        simp only
        rw [hs]
        rfl
  · have hm1 : missingVars env1 ≠ [] := fun h0 => hm (hmv.symm.trans h0)
    have hc1 := getConfigFromEnv_of_missing env1 hm1
    have hc2 := getConfigFromEnv_of_missing env2 hm
    rw [hmv] at hc1
    rw [sendTestEmail_of_config_error h env1 _ hc1,
      sendTestEmail_of_config_error h env2 _ hc2]

/-- C10: two runs whose environments differ only in the non-empty value of
`SMTP_PASS`, with the same outcomes of `verify` and `sendMail`, print the same
lines on standard output and standard error, hand the same message to
`sendMail`, and end with the same exit code. -/
theorem main_independent_of_password (h : Host) (env1 env2 : Env)
    (hagree : ∀ v, v ≠ "SMTP_PASS" → env1 v = env2 v)
    (hp1 : ¬ unsetOrEmpty env1 "SMTP_PASS") (hp2 : ¬ unsetOrEmpty env2 "SMTP_PASS")
    (hsame : ∀ c1 c2, getConfigFromEnv env1 = .ok c1 → getConfigFromEnv env2 = .ok c2 →
      (h.createTransport c1.smtpConfig).verify = (h.createTransport c2.smtpConfig).verify ∧
      ∀ m, (h.createTransport c1.smtpConfig).sendMail m =
        (h.createTransport c2.smtpConfig).sendMail m) :
    (main h env1).trace = (main h env2).trace ∧ (main h env1).code = (main h env2).code := by
  unfold main
  rw [sendTestEmail_congr h env1 env2 hagree hp1 hp2 hsame]
  exact ⟨rfl, rfl⟩

theorem sampleEnv_agree (port p1 p2 : String) :
    ∀ v, v ≠ "SMTP_PASS" → sampleEnv port p1 v = sampleEnv port p2 v := by
  intro v hv
  have hb : (v == "SMTP_PASS") = false := by
    rw [beq_eq_false_iff_ne]
    exact hv
  simp only [sampleEnv, envOf, List.lookup, hb]

/-- Witness of C10: the passwords `s3cret` and `hunter2` with a transport that
accepts the message. -/
theorem main_independent_of_password_witness :
    (∀ v, v ≠ "SMTP_PASS" → sampleEnv "587" "s3cret" v = sampleEnv "587" "hunter2" v) ∧
      ¬ unsetOrEmpty (sampleEnv "587" "s3cret") "SMTP_PASS" ∧
      ¬ unsetOrEmpty (sampleEnv "587" "hunter2") "SMTP_PASS" ∧
      (main (stubHost (.ok ()) (.ok ⟨"abc123", some "250 Ok"⟩)) (sampleEnv "587" "s3cret")).trace =
        (main (stubHost (.ok ()) (.ok ⟨"abc123", some "250 Ok"⟩)) (sampleEnv "587" "hunter2")).trace :=
  ⟨sampleEnv_agree "587" "s3cret" "hunter2", by decide, by decide,
    (main_independent_of_password (stubHost (.ok ()) (.ok ⟨"abc123", some "250 Ok"⟩))
      (sampleEnv "587" "s3cret") (sampleEnv "587" "hunter2")
      (sampleEnv_agree "587" "s3cret" "hunter2") (by decide) (by decide)
      (fun _ _ _ _ => ⟨rfl, fun _ => rfl⟩)).1⟩

end FreeResend
